import Mathlib

/-!
Shallow embedding of the TakeYourPillsBot reminder core
(src/database.py, src/bot.py, src/config.py).

Conventions of the embedding:
* Python `datetime.date` becomes the `Date` structure below; `date.weekday()`
  (Monday = 0 .. Sunday = 6) is computed from the proleptic Gregorian ordinal
  exactly as CPython does.
* SQLite rows become Lean structures; nullable columns become `Option`;
  SQLite integer booleans become `Bool`.
* A table becomes a `List` of rows; SQL `UPDATE ... WHERE` becomes a `map`
  that rewrites matching rows, `INSERT` an append, `SELECT ... fetchone` a
  `find?`.  The `cursor.rowcount > 0` result of an `UPDATE` becomes `any`.
* UTC timestamps become `Int` seconds, so that the re-notify comparison
  `(now_utc - last_sent_utc).total_seconds() >= REMINDER_INTERVAL` is literal.
* Python string truthiness in `a or b` becomes `pyOrStr` (falls through on
  `None` and on the empty string).
-/

namespace PillsBot

/-- Calendar date, modelling Python `datetime.date` with fields
`year`, `month`, `day`. -/
structure Date where
  year : Nat
  month : Nat
  day : Nat
deriving Repr, DecidableEq

/-- Gregorian leap-year rule, as used by Python `calendar.isleap`. -/
def isLeapYear (y : Nat) : Bool :=
  (y % 4 == 0 && y % 100 != 0) || y % 400 == 0

/-- Number of days in the given month: the second component of Python
`calendar.monthrange(year, month)` (used at src/database.py line 334). -/
def monthrange_days (year month : Nat) : Nat :=
  if month = 2 then (if isLeapYear year then 29 else 28)
  else if month = 4 || month = 6 || month = 9 || month = 11 then 30
  else 31

/-- Days strictly before January 1 of the given year in the proleptic
Gregorian calendar (CPython `datetime._days_before_year`). -/
def daysBeforeYear (y : Nat) : Nat :=
  (y - 1) * 365 + (y - 1) / 4 - (y - 1) / 100 + (y - 1) / 400

/-- Days in year `y` strictly before month `m` (CPython
`datetime._days_before_month`). -/
def daysBeforeMonth (y m : Nat) : Nat :=
  (List.range (m - 1)).foldl (fun acc i => acc + monthrange_days y (i + 1)) 0

/-- Proleptic Gregorian ordinal of a date, day 1 being 0001-01-01
(CPython `date.toordinal`). -/
def toordinal (d : Date) : Nat :=
  daysBeforeYear d.year + daysBeforeMonth d.year d.month + d.day

/-- Day of week with Monday = 0 .. Sunday = 6, exactly CPython
`date.weekday`, which returns `(toordinal() + 6) % 7`. -/
def weekday (d : Date) : Nat :=
  (toordinal d + 6) % 7

/-- Row of the `reminders` table (src/database.py lines 20-40), joined with
the owner timezone where needed.  Nullable columns are `Option`; the
`INTEGER` flags `weekend_override` and `active` are `Bool`. -/
structure Reminder where
  id : Nat
  user_id : Nat
  time : String
  frequency : String
  day_of_week : Option Int
  day_of_month : Option Int
  month_fallback : String
  daily_mode : String
  even_day_time : Option String
  odd_day_time : Option String
  weekend_override : Bool
  weekend_time_no_work : Option String
  weekend_time_with_work : Option String
  ask_work_time : String
  active : Bool
deriving Repr, DecidableEq

/-- Translation of src/database.py `should_reminder_trigger` (lines 305-348):
decides whether a reminder is due on `check_date` from its frequency rule. -/
def should_reminder_trigger (reminder : Reminder) (check_date : Date) : Bool :=
  if reminder.frequency = "daily" then
    true
  else if reminder.frequency = "weekly" then
    match reminder.day_of_week with
    | none => true
    | some dow => (weekday check_date : Int) == dow
  else if reminder.frequency = "monthly" then
    match reminder.day_of_month with
    | none => true
    | some dom =>
      if dom ≤ (monthrange_days check_date.year check_date.month : Int) then
        (check_date.day : Int) == dom
      else if reminder.month_fallback = "last_day" then
        (check_date.day : Int) == (monthrange_days check_date.year check_date.month : Int)
      else
        false
  else
    false

/-- Python string disjunction `a or b` for an optional left operand: falls
through to `b` when `a` is `None` or the empty string (both falsy). -/
def pyOrStr (a b : Option String) : Option String :=
  match a with
  | some s => if s = "" then b else some s
  | none => b

/-- Translation of src/database.py `get_reminder_time_for_date`
(lines 489-530): resolves the wall-clock time for a reminder on a date,
given the optional weekend work status. -/
def get_reminder_time_for_date (reminder : Reminder) (check_date : Date)
    (has_work : Option Bool) : Option String :=
  if reminder.frequency ≠ "daily" then
    some reminder.time
  else if reminder.daily_mode = "simple" then
    some reminder.time
  else if 5 ≤ weekday check_date ∧ reminder.weekend_override = true then
    match has_work with
    | none => pyOrStr reminder.weekend_time_no_work (some reminder.time)
    | some true => pyOrStr reminder.weekend_time_with_work (some reminder.time)
    | some false => pyOrStr reminder.weekend_time_no_work (some reminder.time)
  else if check_date.day % 2 = 0 then
    pyOrStr reminder.even_day_time (some reminder.time)
  else
    pyOrStr reminder.odd_day_time (some reminder.time)

/-- Row of the `users` table (src/database.py lines 11-18).  The timezone
column defaults to the string UTC. -/
structure User where
  user_id : Nat
  timezone : String
deriving Repr, DecidableEq

/-- Row of the `reminder_states` table (src/database.py lines 57-69), keyed
by `(reminder_id, reminder_date)`; `last_sent` is a nullable UTC timestamp
in seconds and `acknowledged` an integer flag. -/
structure ReminderState where
  user_id : Nat
  reminder_id : Nat
  reminder_date : Date
  last_sent : Option Int
  acknowledged : Bool
deriving Repr, DecidableEq

/-- Row of the `weekend_work_status` table (src/database.py lines 42-55). -/
structure WeekendWorkStatus where
  user_id : Nat
  reminder_id : Nat
  target_date : Date
  has_work : Option Bool
  asked_at : Option Int
  responded : Bool
deriving Repr, DecidableEq

/-- The whole SQLite database as lists of rows. -/
structure Database where
  users : List User
  reminders : List Reminder
  reminder_states : List ReminderState
  weekend_work_status : List WeekendWorkStatus
deriving Repr, DecidableEq

/-- Translation of src/database.py `get_or_create_user` (lines 94-115):
returns the (possibly extended) users table and the row for `user_id`. -/
def get_or_create_user (users : List User) (uid : Nat) : List User × User :=
  match users.find? (fun u => u.user_id == uid) with
  | some u => (users, u)
  | none => (users ++ [⟨uid, "UTC"⟩], ⟨uid, "UTC"⟩)

/-- Translation of src/database.py `set_user_timezone` (lines 118-128):
ensures the user row exists, then runs the unconditional SQL UPDATE of the
timezone column and returns `True`.  No validation of the string occurs. -/
def set_user_timezone (users : List User) (uid : Nat) (tz : String) :
    List User × Bool :=
  let users1 := (get_or_create_user users uid).1
  (users1.map (fun u => if u.user_id == uid then { u with timezone := tz } else u),
   true)

/-- Translation of src/database.py `get_user_timezone` (lines 131-134). -/
def get_user_timezone (users : List User) (uid : Nat) : String :=
  (get_or_create_user users uid).2.timezone

/-- Modelled from the spec: the external pytz library (not part of src/)
accepts exactly the names of the IANA timezone database; the spec speaks of
an unknown timezone name being rejected.  Only an over-approximation of
membership is needed here: every name in the IANA database consists of
letters, digits and the punctuation slash, underscore, plus, minus, so a
string failing this check is certainly not a known IANA timezone name. -/
def could_be_iana_timezone (s : String) : Bool :=
  !s.data.isEmpty &&
    s.data.all (fun c =>
      c.isAlpha || c.isDigit || c == '/' || c == '_' || c == '+' || c == '-')

/-- Translation of src/database.py `remove_reminder` (lines 213-221): the
SQL UPDATE sets `active = 0` on rows matching both id and owner, and the
function returns `rowcount > 0`, i.e. whether any row matched. -/
def remove_reminder (db : Database) (uid rid : Nat) : Database × Bool :=
  ({ db with
      reminders := db.reminders.map (fun r =>
        if r.id == rid && r.user_id == uid then { r with active := false } else r) },
   db.reminders.any (fun r => r.id == rid && r.user_id == uid))

/-- Key predicate of the `UNIQUE(reminder_id, reminder_date)` lookups on
`reminder_states`. -/
def matchesKey (rid : Nat) (d : Date) (s : ReminderState) : Bool :=
  s.reminder_id == rid && s.reminder_date == d

/-- Translation of src/database.py `get_reminder_state` (lines 224-233). -/
def get_reminder_state (tbl : List ReminderState) (rid : Nat) (d : Date) :
    Option ReminderState :=
  tbl.find? (matchesKey rid d)

/-- Translation of src/database.py `create_or_update_reminder_state`
(lines 236-273): if a row for the key exists, the SQL UPDATE overwrites
`last_sent` with `datetime.utcnow()` and `acknowledged` with the argument;
otherwise a fresh row is inserted.  `now` stands for `datetime.utcnow()`. -/
def create_or_update_reminder_state (tbl : List ReminderState) (uid rid : Nat)
    (d : Date) (acknowledged : Bool) (now : Int) : List ReminderState :=
  match tbl.find? (matchesKey rid d) with
  | some _ =>
      tbl.map (fun s =>
        if matchesKey rid d s then
          { s with last_sent := some now, acknowledged := acknowledged }
        else s)
  | none => tbl ++ [⟨uid, rid, d, some now, acknowledged⟩]

/-- Translation of src/database.py `acknowledge_reminder` (lines 276-285):
the SQL UPDATE sets `acknowledged = 1` on rows matching the key, and the
function returns `rowcount > 0`, i.e. whether any row matched. -/
def acknowledge_reminder (tbl : List ReminderState) (rid : Nat) (d : Date) :
    List ReminderState × Bool :=
  (tbl.map (fun s =>
      if matchesKey rid d s then { s with acknowledged := true } else s),
   tbl.any (matchesKey rid d))

/-- Translation of src/database.py `is_reminder_acknowledged`
(lines 288-291). -/
def is_reminder_acknowledged (tbl : List ReminderState) (rid : Nat) (d : Date) :
    Bool :=
  match get_reminder_state tbl rid d with
  | some s => s.acknowledged
  | none => false

/-- Re-notify interval in seconds: src/config.py line 24 reads it from the
environment with default 300. -/
def REMINDER_INTERVAL : Int := 300

/-- Result of one evaluation step for one reminder: the reminder-state table
after the step, and whether a reminder message was actually delivered. -/
structure TickResult where
  table : List ReminderState
  dispatched : Bool
deriving Repr, DecidableEq

/-- Translation of src/bot.py `send_reminder_message` (lines 978-1021),
restricted to its effect on the reminder-state table: return early if the
date is already acknowledged, else upsert the state row (default
`acknowledged=False`, `last_sent = now`) and deliver the message. -/
def send_reminder_message (tbl : List ReminderState) (uid rid : Nat)
    (today : Date) (now : Int) : TickResult :=
  if is_reminder_acknowledged tbl rid today then
    ⟨tbl, false⟩
  else
    ⟨create_or_update_reminder_state tbl uid rid today false now, true⟩

/-- Time resolution inside src/bot.py `check_reminders` (lines 1160-1175):
advanced daily reminders go through `get_reminder_time_for_date`, everything
else uses the base time column directly. -/
def resolved_reminder_time (reminder : Reminder) (today : Date)
    (has_work : Option Bool) : Option String :=
  if reminder.frequency = "daily" && reminder.daily_mode = "advanced" then
    get_reminder_time_for_date reminder today has_work
  else
    some reminder.time

/-- Translation of the per-reminder body of src/bot.py `check_reminders`
(lines 1142-1216) for one tick: skip unless the frequency rule matches
today; skip when the resolved time is missing or empty; skip when already
acknowledged; when local now has reached the due time (`now_ge_due`), apply
the re-notify decision on `last_sent` and, if it passes, run the delivery
job `send_reminder_message`.  `has_work` stands for the weekend work-status
lookup and `now_utc` for UTC now in seconds. -/
def check_reminder_tick (reminder : Reminder) (tbl : List ReminderState)
    (today : Date) (has_work : Option Bool) (now_ge_due : Bool) (now_utc : Int) :
    TickResult :=
  if ¬ should_reminder_trigger reminder today then
    ⟨tbl, false⟩
  else
    match resolved_reminder_time reminder today has_work with
    | none => ⟨tbl, false⟩
    | some t =>
      if t = "" then
        ⟨tbl, false⟩
      else if is_reminder_acknowledged tbl reminder.id today then
        ⟨tbl, false⟩
      else if now_ge_due then
        match get_reminder_state tbl reminder.id today with
        | none => send_reminder_message tbl reminder.user_id reminder.id today now_utc
        | some s =>
          match s.last_sent with
          | none => send_reminder_message tbl reminder.user_id reminder.id today now_utc
          | some last =>
            if REMINDER_INTERVAL ≤ now_utc - last then
              send_reminder_message tbl reminder.user_id reminder.id today now_utc
            else
              ⟨tbl, false⟩
      else
        ⟨tbl, false⟩

/-- Iterated evaluation ticks for a single reminder on a fixed date: each
tick carries its own work status, due flag and UTC clock.  Returns the final
table and whether any tick dispatched. -/
def run_ticks (reminder : Reminder) (today : Date) (tbl : List ReminderState)
    (ticks : List (Option Bool × Bool × Int)) : List ReminderState × Bool :=
  match ticks with
  | [] => (tbl, false)
  | (hw, due, now) :: rest =>
    let res := check_reminder_tick reminder tbl today hw due now
    let fin := run_ticks reminder today res.table rest
    (fin.1, res.dispatched || fin.2)

/-- Sample date used by concrete witnesses. -/
def sampleDate : Date := ⟨2025, 1, 15⟩

/-- Sample simple daily reminder (id 2, owner 1) used by concrete
witnesses. -/
def sampleDaily : Reminder :=
  ⟨2, 1, "09:00", "daily", none, none, "last_day", "simple",
   none, none, false, none, none, "18:00", true⟩

/-- Sample sent-but-unacknowledged state row for `sampleDaily` on
`sampleDate`, last sent at UTC second 1000. -/
def sampleState : ReminderState := ⟨1, 2, sampleDate, some 1000, false⟩

/-- Sample acknowledged state row for `sampleDaily` on `sampleDate`. -/
def sampleAcked : ReminderState := ⟨1, 2, sampleDate, some 1000, true⟩

/-! ### Helper lemmas on list tables -/

lemma find?_map_of_pres {α : Type} (p : α → Bool) (f : α → α)
    (hf : ∀ x, p (f x) = p x) :
    ∀ (l : List α) (a : α), l.find? p = some a → (l.map f).find? p = some (f a) := by
  intro l
  induction l with
  | nil => intro a h; simp [List.find?] at h
  | cons x xs ih =>
    intro a h
    by_cases hx : p x = true
    · rw [List.find?_cons_of_pos _ hx] at h
      cases h
      simp only [List.map_cons]
      exact List.find?_cons_of_pos _ (by rw [hf]; exact hx)
    · rw [List.find?_cons_of_neg _ (by simpa using hx)] at h
      simp only [List.map_cons]
      rw [List.find?_cons_of_neg _ (by rw [hf]; simpa using hx)]
      exact ih a h

lemma find?_append_of_none {α : Type} (p : α → Bool) (l1 l2 : List α)
    (h : l1.find? p = none) : (l1 ++ l2).find? p = l2.find? p := by
  induction l1 with
  | nil => simp
  | cons x xs ih =>
    by_cases hx : p x = true
    · rw [List.find?_cons_of_pos _ hx] at h; cases h
    · rw [List.find?_cons_of_neg _ (by simpa using hx)] at h
      simpa [List.find?_cons_of_neg _ (by simpa using hx : ¬ p x = true)] using ih h

lemma get_or_create_of_found (users : List User) (uid : Nat) (u : User)
    (h : users.find? (fun x => x.user_id == uid) = some u) :
    get_or_create_user users uid = (users, u) := by
  unfold get_or_create_user
  rw [h]

lemma matchesKey_pres_ack (rid : Nat) (d : Date) (x : ReminderState) :
    matchesKey rid d (if matchesKey rid d x then { x with acknowledged := true } else x) =
      matchesKey rid d x := by
  by_cases hx : matchesKey rid d x = true
  · rw [if_pos hx]; rfl
  · rw [if_neg hx]

lemma matchesKey_pres_upsert (rid : Nat) (d : Date) (b : Bool) (now : Int)
    (x : ReminderState) :
    matchesKey rid d
        (if matchesKey rid d x then { x with last_sent := some now, acknowledged := b } else x) =
      matchesKey rid d x := by
  by_cases hx : matchesKey rid d x = true
  · rw [if_pos hx]; rfl
  · rw [if_neg hx]

lemma get_reminder_state_upsert (tbl : List ReminderState) (uid rid : Nat)
    (d : Date) (b : Bool) (now : Int) (s : ReminderState)
    (h : get_reminder_state tbl rid d = some s) :
    get_reminder_state (create_or_update_reminder_state tbl uid rid d b now) rid d =
      some { s with last_sent := some now, acknowledged := b } := by
  have hp : matchesKey rid d s = true := List.find?_some h
  unfold get_reminder_state at h ⊢
  unfold create_or_update_reminder_state
  rw [h]
  have hmap := find?_map_of_pres (matchesKey rid d)
    (fun x => if matchesKey rid d x then { x with last_sent := some now, acknowledged := b } else x)
    (matchesKey_pres_upsert rid d b now) tbl s h
  rw [hmap]
  simp [hp]

lemma tick_of_acked (r : Reminder) (tbl : List ReminderState) (today : Date)
    (hw : Option Bool) (due : Bool) (now : Int)
    (h : is_reminder_acknowledged tbl r.id today = true) :
    check_reminder_tick r tbl today hw due now = ⟨tbl, false⟩ := by
  unfold check_reminder_tick
  split
  · rfl
  · cases hm : resolved_reminder_time r today hw with
    | none => rfl
    | some t => simp [h]

lemma run_ticks_of_acked (r : Reminder) (today : Date) (tbl : List ReminderState)
    (ticks : List (Option Bool × Bool × Int))
    (h : is_reminder_acknowledged tbl r.id today = true) :
    run_ticks r today tbl ticks = (tbl, false) := by
  induction ticks with
  | nil => rfl
  | cons tick rest ih =>
    obtain ⟨hw, due, now⟩ := tick
    unfold run_ticks
    rw [tick_of_acked r tbl today hw due now h]
    simp [ih]

/-! ### Claim theorems -/

/-- C1: for a monthly reminder with day_of_month `m`, should_reminder_trigger
matches the day when `m` fits in the month; when `m` overflows the month,
fallback last_day matches exactly the last day and fallback skip never
matches in that month. -/
theorem monthly_trigger_spec (r : Reminder) (d : Date) (m : Int)
    (hf : r.frequency = "monthly") (hm : r.day_of_month = some m) :
    (m ≤ (monthrange_days d.year d.month : Int) →
      (should_reminder_trigger r d = true ↔ (d.day : Int) = m)) ∧
    ((monthrange_days d.year d.month : Int) < m → r.month_fallback = "last_day" →
      (should_reminder_trigger r d = true ↔
        (d.day : Int) = (monthrange_days d.year d.month : Int))) ∧
    ((monthrange_days d.year d.month : Int) < m → r.month_fallback = "skip" →
      should_reminder_trigger r d = false) := by
  unfold should_reminder_trigger
  rw [hf, hm]
  refine ⟨fun hle => ?_, fun hlt hfb => ?_, fun hlt hfb => ?_⟩
  · simp [hle]
  · rw [hfb]
    simp [not_le.mpr hlt]
  · rw [hfb]
    simp [not_le.mpr hlt]

/-- C1 witness: day_of_month 31 with fallback skip does not trigger on
2025-02-10 (February 2025 has 28 days), and with fallback last_day triggers
on 2025-04-30 (April has 30 days). -/
theorem monthly_trigger_spec_witness :
    should_reminder_trigger
      ⟨1, 1, "09:00", "monthly", none, some 31, "skip", "simple",
       none, none, false, none, none, "18:00", true⟩ ⟨2025, 2, 10⟩ = false ∧
    should_reminder_trigger
      ⟨1, 1, "09:00", "monthly", none, some 31, "last_day", "simple",
       none, none, false, none, none, "18:00", true⟩ ⟨2025, 4, 30⟩ = true := by
  constructor
  · exact (monthly_trigger_spec
      ⟨1, 1, "09:00", "monthly", none, some 31, "skip", "simple",
       none, none, false, none, none, "18:00", true⟩ ⟨2025, 2, 10⟩ 31
      rfl rfl).2.2 (by decide) rfl
  · exact ((monthly_trigger_spec
      ⟨1, 1, "09:00", "monthly", none, some 31, "last_day", "simple",
       none, none, false, none, none, "18:00", true⟩ ⟨2025, 4, 30⟩ 31
      rfl rfl).2.1 (by decide) rfl).mpr (by decide)

/-- C7: a weekly reminder with day_of_week `k` triggers exactly on dates
whose Python weekday equals `k`. -/
theorem weekly_trigger_spec (r : Reminder) (d : Date) (k : Int)
    (hf : r.frequency = "weekly") (hk : r.day_of_week = some k) :
    should_reminder_trigger r d = true ↔ (weekday d : Int) = k := by
  unfold should_reminder_trigger
  rw [hf, hk]
  simp

/-- C7 witness: a weekly reminder for Wednesday (day_of_week 2) triggers on
2025-01-15 (a Wednesday) and not on 2025-01-14 (a Tuesday). -/
theorem weekly_trigger_spec_witness :
    should_reminder_trigger
      ⟨1, 1, "09:00", "weekly", some 2, none, "last_day", "simple",
       none, none, false, none, none, "18:00", true⟩ ⟨2025, 1, 15⟩ = true ∧
    should_reminder_trigger
      ⟨1, 1, "09:00", "weekly", some 2, none, "last_day", "simple",
       none, none, false, none, none, "18:00", true⟩ ⟨2025, 1, 14⟩ ≠ true := by
  constructor
  · exact (weekly_trigger_spec
      ⟨1, 1, "09:00", "weekly", some 2, none, "last_day", "simple",
       none, none, false, none, none, "18:00", true⟩ ⟨2025, 1, 15⟩ 2
      rfl rfl).mpr (by decide)
  · intro h
    exact absurd ((weekly_trigger_spec
      ⟨1, 1, "09:00", "weekly", some 2, none, "last_day", "simple",
       none, none, false, none, none, "18:00", true⟩ ⟨2025, 1, 14⟩ 2
      rfl rfl).mp h) (by decide)

/-- C5: on a Saturday or Sunday, an advanced-daily reminder with the weekend
override enabled resolves to the with-work weekend time when has_work is
true, and to the no-work weekend time when has_work is false or unknown;
with the no-work variant unset and has_work unknown it falls back to the
base time. -/
theorem weekend_time_spec (r : Reminder) (d : Date) (hw : Option Bool)
    (hf : r.frequency = "daily") (hmode : r.daily_mode = "advanced")
    (hov : r.weekend_override = true) (hwk : 5 ≤ weekday d) :
    (hw = some true →
      get_reminder_time_for_date r d hw =
        pyOrStr r.weekend_time_with_work (some r.time)) ∧
    (hw = some false →
      get_reminder_time_for_date r d hw =
        pyOrStr r.weekend_time_no_work (some r.time)) ∧
    (hw = none →
      get_reminder_time_for_date r d hw =
        pyOrStr r.weekend_time_no_work (some r.time)) ∧
    (hw = none → r.weekend_time_no_work = none →
      get_reminder_time_for_date r d hw = some r.time) := by
  unfold get_reminder_time_for_date
  rw [hf, hmode]
  refine ⟨fun h1 => ?_, fun h2 => ?_, fun h3 => ?_, fun h3 hn => ?_⟩
  · subst h1; simp [hwk, hov]
  · subst h2; simp [hwk, hov]
  · subst h3; simp [hwk, hov]
  · subst h3; simp [hwk, hov, hn, pyOrStr]

/-- C5 witness: an advanced-daily reminder with weekend override, no-work
time 10:00 and with-work time 07:30 resolves to 10:00 on Saturday 2025-01-18
with unknown work status, and to 07:30 there with has_work true. -/
theorem weekend_time_spec_witness :
    get_reminder_time_for_date
      ⟨1, 1, "09:00", "daily", none, none, "last_day", "advanced",
       none, none, true, some "10:00", some "07:30", "18:00", true⟩
      ⟨2025, 1, 18⟩ none = some "10:00" ∧
    get_reminder_time_for_date
      ⟨1, 1, "09:00", "daily", none, none, "last_day", "advanced",
       none, none, true, some "10:00", some "07:30", "18:00", true⟩
      ⟨2025, 1, 18⟩ (some true) = some "07:30" := by
  constructor
  · exact ((weekend_time_spec
      ⟨1, 1, "09:00", "daily", none, none, "last_day", "advanced",
       none, none, true, some "10:00", some "07:30", "18:00", true⟩
      ⟨2025, 1, 18⟩ none rfl rfl rfl (by decide)).2.2.1 rfl).trans (by decide)
  · exact ((weekend_time_spec
      ⟨1, 1, "09:00", "daily", none, none, "last_day", "advanced",
       none, none, true, some "10:00", some "07:30", "18:00", true⟩
      ⟨2025, 1, 18⟩ (some true) rfl rfl rfl (by decide)).1 rfl).trans (by decide)

/-- C6: on a date not handled by the weekend override (a weekday, or the
override disabled), an advanced-daily reminder resolves to the even-day time
on even days of the month and the odd-day time on odd days, each falling
back to the base time when unset. -/
theorem evenodd_time_spec (r : Reminder) (d : Date) (hw : Option Bool)
    (hf : r.frequency = "daily") (hmode : r.daily_mode = "advanced")
    (hreg : weekday d < 5 ∨ r.weekend_override = false) :
    (d.day % 2 = 0 →
      get_reminder_time_for_date r d hw = pyOrStr r.even_day_time (some r.time)) ∧
    (d.day % 2 = 1 →
      get_reminder_time_for_date r d hw = pyOrStr r.odd_day_time (some r.time)) ∧
    (d.day % 2 = 0 → r.even_day_time = none →
      get_reminder_time_for_date r d hw = some r.time) ∧
    (d.day % 2 = 1 → r.odd_day_time = none →
      get_reminder_time_for_date r d hw = some r.time) := by
  have hno : ¬ (5 ≤ weekday d ∧ r.weekend_override = true) := by
    rcases hreg with h | h
    · exact fun hc => absurd hc.1 (not_le.mpr h)
    · exact fun hc => by rw [h] at hc; exact absurd hc.2 (by decide)
  unfold get_reminder_time_for_date
  rw [hf, hmode]
  refine ⟨fun he => ?_, fun ho => ?_, fun he hn => ?_, fun ho hn => ?_⟩
  · simp [hno, he]
  · have : ¬ d.day % 2 = 0 := by omega
    simp [hno, this]
  · simp [hno, he, hn, pyOrStr]
  · have : ¬ d.day % 2 = 0 := by omega
    simp [hno, this, hn, pyOrStr]

/-- C6 witness: an advanced-daily reminder with even-day time 08:00 and
odd-day time 20:00 and no weekend override resolves to 08:00 on 2025-01-14
(day 14, even) and to 20:00 on 2025-01-15 (day 15, odd). -/
theorem evenodd_time_spec_witness :
    get_reminder_time_for_date
      ⟨1, 1, "09:00", "daily", none, none, "last_day", "advanced",
       some "08:00", some "20:00", false, none, none, "18:00", true⟩
      ⟨2025, 1, 14⟩ none = some "08:00" ∧
    get_reminder_time_for_date
      ⟨1, 1, "09:00", "daily", none, none, "last_day", "advanced",
       some "08:00", some "20:00", false, none, none, "18:00", true⟩
      ⟨2025, 1, 15⟩ none = some "20:00" := by
  constructor
  · exact ((evenodd_time_spec
      ⟨1, 1, "09:00", "daily", none, none, "last_day", "advanced",
       some "08:00", some "20:00", false, none, none, "18:00", true⟩
      ⟨2025, 1, 14⟩ none rfl rfl (Or.inr rfl)).1 (by decide)).trans (by decide)
  · exact ((evenodd_time_spec
      ⟨1, 1, "09:00", "daily", none, none, "last_day", "advanced",
       some "08:00", some "20:00", false, none, none, "18:00", true⟩
      ⟨2025, 1, 15⟩ none rfl rfl (Or.inr rfl)).2.1 (by decide)).trans (by decide)

/-- C3 counterexample: with no state row for the key (prior state unsent),
acknowledge_reminder is a no-op SQL UPDATE — afterwards
is_reminder_acknowledged is still false and the call reports no row
matched, contradicting the claim for the unsent case. -/
theorem acknowledge_unsent_counterexample :
    is_reminder_acknowledged
        (acknowledge_reminder ([] : List ReminderState) 1 ⟨2025, 1, 15⟩).1
        1 ⟨2025, 1, 15⟩ = false ∧
    (acknowledge_reminder ([] : List ReminderState) 1 ⟨2025, 1, 15⟩).2 = false := by
  exact ⟨rfl, rfl⟩

/-- C3 amended: when a state row for (reminder, date) exists,
acknowledge_reminder makes is_reminder_acknowledged true and reports a
matched row; a second call is idempotent on the table, raises no error,
reports a matched row again, and the row count never changes (no duplicate
row). -/
theorem acknowledge_idempotent (tbl : List ReminderState) (rid : Nat) (d : Date)
    (s : ReminderState) (h : get_reminder_state tbl rid d = some s) :
    is_reminder_acknowledged (acknowledge_reminder tbl rid d).1 rid d = true ∧
    (acknowledge_reminder tbl rid d).2 = true ∧
    (acknowledge_reminder (acknowledge_reminder tbl rid d).1 rid d).1 =
      (acknowledge_reminder tbl rid d).1 ∧
    (acknowledge_reminder (acknowledge_reminder tbl rid d).1 rid d).2 = true ∧
    ((acknowledge_reminder tbl rid d).1).length = tbl.length := by
  have hp : matchesKey rid d s = true := List.find?_some h
  have hmem : s ∈ tbl := List.mem_of_find?_eq_some h
  have hmap := find?_map_of_pres (matchesKey rid d)
    (fun x => if matchesKey rid d x then { x with acknowledged := true } else x)
    (matchesKey_pres_ack rid d) tbl s h
  refine ⟨?_, ?_, ?_, ?_, ?_⟩
  · unfold is_reminder_acknowledged get_reminder_state acknowledge_reminder
    rw [hmap]
    simp [hp]
  · unfold acknowledge_reminder
    exact List.any_eq_true.mpr ⟨s, hmem, hp⟩
  · unfold acknowledge_reminder
    rw [List.map_map]
    refine congrArg (fun f => List.map f tbl) (funext fun x => ?_)
    by_cases hx : matchesKey rid d x = true
    · have hx2 : matchesKey rid d { x with acknowledged := true } = true := hx
      simp [hx, hx2]
    · simp [hx]
  · unfold acknowledge_reminder
    rw [List.any_map]
    refine List.any_eq_true.mpr ⟨s, hmem, ?_⟩
    show matchesKey rid d
      (if matchesKey rid d s then { s with acknowledged := true } else s) = true
    rw [matchesKey_pres_ack]
    exact hp
  · unfold acknowledge_reminder
    exact List.length_map tbl _

/-- C3 witness: on a table holding one unacknowledged sent row for reminder
2 on the sample date, acknowledging marks it acknowledged, twice leaves the
table fixed with one row. -/
theorem acknowledge_idempotent_witness :
    is_reminder_acknowledged (acknowledge_reminder [sampleState] 2 sampleDate).1
      2 sampleDate = true ∧
    (acknowledge_reminder (acknowledge_reminder [sampleState] 2 sampleDate).1
      2 sampleDate).1 = (acknowledge_reminder [sampleState] 2 sampleDate).1 ∧
    ((acknowledge_reminder [sampleState] 2 sampleDate).1).length = 1 := by
  have h := acknowledge_idempotent [sampleState] 2 sampleDate sampleState (by decide)
  exact ⟨h.1, h.2.2.1, h.2.2.2.2⟩

/-- C10: on a key that already has a state row, the upsert with its default
acknowledged=False overwrites both last_sent and the acknowledged flag, so
a previously acknowledged date is regressed to unacknowledged; the delivery
job guards against this by returning before the upsert whenever
is_reminder_acknowledged already holds. -/
theorem upsert_overwrites_acknowledged (tbl : List ReminderState) (uid rid : Nat)
    (d : Date) (now : Int) (s : ReminderState)
    (h : get_reminder_state tbl rid d = some s) :
    get_reminder_state (create_or_update_reminder_state tbl uid rid d false now) rid d =
      some { s with last_sent := some now, acknowledged := false } ∧
    is_reminder_acknowledged (create_or_update_reminder_state tbl uid rid d false now)
      rid d = false ∧
    (is_reminder_acknowledged tbl rid d = true →
      send_reminder_message tbl uid rid d now = ⟨tbl, false⟩) := by
  have h1 := get_reminder_state_upsert tbl uid rid d false now s h
  refine ⟨h1, ?_, fun hack => ?_⟩
  · unfold is_reminder_acknowledged
    rw [h1]
  · unfold send_reminder_message
    rw [hack]
    rfl

/-- C10 witness: a sample acknowledged row (acknowledged = 1) upserted with
the default acknowledged=False at UTC second 2000 is regressed to
acknowledged = 0 with last_sent 2000, while the delivery job on the
acknowledged table returns without touching it. -/
theorem upsert_overwrites_acknowledged_witness :
    get_reminder_state
        (create_or_update_reminder_state [sampleAcked] 1 2 sampleDate false 2000)
        2 sampleDate =
      some { sampleAcked with last_sent := some 2000, acknowledged := false } ∧
    send_reminder_message [sampleAcked] 1 2 sampleDate 2000 = ⟨[sampleAcked], false⟩ := by
  have h := upsert_overwrites_acknowledged [sampleAcked] 1 2 sampleDate 2000
    sampleAcked (by decide)
  exact ⟨h.1, h.2.2 (by decide)⟩

/-- C2: for a reminder due today, past its resolved time, not acknowledged,
with an existing state row last sent at lastT: an evaluation tick at UTC
second now_utc dispatches nothing and changes nothing when
now_utc - lastT < REMINDER_INTERVAL, and dispatches and refreshes last_sent
to now_utc when now_utc - lastT ≥ REMINDER_INTERVAL (default 300 seconds). -/
theorem renotify_interval_spec (r : Reminder) (tbl : List ReminderState)
    (today : Date) (hw : Option Bool) (now_utc lastT : Int) (s : ReminderState)
    (t : String)
    (htrig : should_reminder_trigger r today = true)
    (htime : resolved_reminder_time r today hw = some t)
    (hne : ¬ t = "")
    (hack : is_reminder_acknowledged tbl r.id today = false)
    (hstate : get_reminder_state tbl r.id today = some s)
    (hsent : s.last_sent = some lastT) :
    (now_utc - lastT < REMINDER_INTERVAL →
      check_reminder_tick r tbl today hw true now_utc = ⟨tbl, false⟩) ∧
    (REMINDER_INTERVAL ≤ now_utc - lastT →
      (check_reminder_tick r tbl today hw true now_utc).dispatched = true ∧
      get_reminder_state (check_reminder_tick r tbl today hw true now_utc).table
          r.id today =
        some { s with last_sent := some now_utc, acknowledged := false }) := by
  have hsend : send_reminder_message tbl r.user_id r.id today now_utc =
      ⟨create_or_update_reminder_state tbl r.user_id r.id today false now_utc, true⟩ := by
    unfold send_reminder_message
    rw [hack]
    rfl
  have hbody : ∀ now : Int, check_reminder_tick r tbl today hw true now =
      if REMINDER_INTERVAL ≤ now - lastT then
        send_reminder_message tbl r.user_id r.id today now
      else ⟨tbl, false⟩ := by
    intro now
    unfold check_reminder_tick
    rw [if_neg (by rw [htrig]; exact fun hc => hc rfl), htime]
    simp only [hne, if_false, ite_false, hack, Bool.false_eq_true, if_true, ite_true,
      hstate, hsent, if_neg hne]
  constructor
  · intro hlt
    rw [hbody now_utc, if_neg (not_le.mpr hlt)]
  · intro hge
    rw [hbody now_utc, if_pos hge, hsend]
    exact ⟨rfl, get_reminder_state_upsert tbl r.user_id r.id today false now_utc s hstate⟩

/-- C2 witness: with the sample row last sent at UTC second 1000, a due
unacknowledged tick at second 1299 (299 s later) neither dispatches nor
changes the table, while a tick at second 1300 dispatches and refreshes
last_sent to 1300. -/
theorem renotify_interval_spec_witness :
    check_reminder_tick sampleDaily [sampleState] sampleDate none true 1299 =
      ⟨[sampleState], false⟩ ∧
    (check_reminder_tick sampleDaily [sampleState] sampleDate none true 1300).dispatched
      = true ∧
    get_reminder_state
        (check_reminder_tick sampleDaily [sampleState] sampleDate none true 1300).table
        2 sampleDate =
      some { sampleState with last_sent := some 1300, acknowledged := false } := by
  have h1299 := renotify_interval_spec sampleDaily [sampleState] sampleDate none
    1299 1000 sampleState "09:00" (by decide) (by decide) (by decide) (by decide)
    (by decide) (by decide)
  have h1300 := renotify_interval_spec sampleDaily [sampleState] sampleDate none
    1300 1000 sampleState "09:00" (by decide) (by decide) (by decide) (by decide)
    (by decide) (by decide)
  exact ⟨h1299.1 (by decide), (h1300.2 (by decide)).1, (h1300.2 (by decide)).2⟩

/-- C4: once a date is acknowledged, any number of further evaluation ticks
dispatches nothing and leaves the state table unchanged, and the delivery
job itself also returns without dispatching — the acknowledged check guards
both the tick loop and the job. -/
theorem acknowledged_blocks_dispatch (r : Reminder) (tbl : List ReminderState)
    (today : Date) (ticks : List (Option Bool × Bool × Int)) (uid : Nat) (now : Int)
    (hack : is_reminder_acknowledged tbl r.id today = true) :
    run_ticks r today tbl ticks = (tbl, false) ∧
    send_reminder_message tbl uid r.id today now = ⟨tbl, false⟩ := by
  refine ⟨run_ticks_of_acked r today tbl ticks hack, ?_⟩
  unfold send_reminder_message
  rw [hack]
  rfl

/-- C4 witness: with the sample acknowledged row, two further due ticks
dispatch nothing and leave the table unchanged, and the delivery job
returns without dispatching. -/
theorem acknowledged_blocks_dispatch_witness :
    run_ticks sampleDaily sampleDate [sampleAcked]
      [(none, true, 5000), (none, true, 9000)] = ([sampleAcked], false) ∧
    send_reminder_message [sampleAcked] 1 2 sampleDate 5000 = ⟨[sampleAcked], false⟩ :=
  acknowledged_blocks_dispatch sampleDaily [sampleAcked] sampleDate
    [(none, true, 5000), (none, true, 9000)] 1 5000 (by decide)

/-- C8 counterexample: the string "not a timezone" is certainly not a known
IANA timezone name (it contains spaces), yet set_user_timezone persists it:
the stored timezone of user 1 changes from UTC to it and the call reports
success — the value is not rejected before persisting. -/
theorem set_timezone_unvalidated_counterexample :
    could_be_iana_timezone "not a timezone" = false ∧
    get_user_timezone [⟨1, "UTC"⟩] 1 = "UTC" ∧
    get_user_timezone (set_user_timezone [⟨1, "UTC"⟩] 1 "not a timezone").1 1 =
      "not a timezone" ∧
    (set_user_timezone [⟨1, "UTC"⟩] 1 "not a timezone").2 = true := by
  refine ⟨by decide, rfl, rfl, rfl⟩

/-- C8 amended: set_user_timezone performs no validation at all — for every
string, known IANA name or not, it persists the value (the stored timezone
afterwards is exactly the argument) and returns success.  The calling
callback in src/bot.py likewise persists before the pytz lookup, so no
rejection happens before persisting. -/
theorem set_timezone_persists_any (users : List User) (uid : Nat) (tz : String) :
    get_user_timezone (set_user_timezone users uid tz).1 uid = tz ∧
    (set_user_timezone users uid tz).2 = true := by
  have hfind : (get_or_create_user users uid).1.find? (fun u => u.user_id == uid) =
      some (get_or_create_user users uid).2 := by
    unfold get_or_create_user
    cases hf : users.find? (fun u => u.user_id == uid) with
    | some u => simpa using hf
    | none =>
      simp only
      rw [find?_append_of_none _ _ _ hf]
      exact List.find?_cons_of_pos _ (by simp)
  have hp : ((get_or_create_user users uid).2.user_id == uid) = true := by
    have := List.find?_some hfind
    simpa using this
  have hmap := find?_map_of_pres (fun u : User => u.user_id == uid)
    (fun u => if u.user_id == uid then { u with timezone := tz } else u)
    (fun x => by
      by_cases hx : (x.user_id == uid) = true
      · simp [hx]
      · simp [hx])
    (get_or_create_user users uid).1 (get_or_create_user users uid).2 hfind
  refine ⟨?_, rfl⟩
  have hset : (set_user_timezone users uid tz).1 =
      ((get_or_create_user users uid).1).map
        (fun u => if u.user_id == uid then { u with timezone := tz } else u) := rfl
  unfold get_user_timezone
  rw [hset, get_or_create_of_found _ uid _ hmap]
  simp [hp]

/-- C9: remove_reminder only rewrites the active flag of reminders matching
both id and owner to 0; the reminder rows themselves all remain (same
length, row i stays row i with at most the active flag cleared), the
reminder_states and weekend_work_status tables and the users table are
untouched, and the call reports success exactly when a matching reminder
row existed. -/
theorem remove_reminder_spec (db : Database) (uid rid : Nat) :
    (remove_reminder db uid rid).1.reminder_states = db.reminder_states ∧
    (remove_reminder db uid rid).1.weekend_work_status = db.weekend_work_status ∧
    (remove_reminder db uid rid).1.users = db.users ∧
    (remove_reminder db uid rid).1.reminders.length = db.reminders.length ∧
    (∀ i : Nat, (remove_reminder db uid rid).1.reminders[i]? =
      (db.reminders[i]?).map (fun r =>
        if r.id == rid && r.user_id == uid then { r with active := false } else r)) ∧
    ((remove_reminder db uid rid).2 = true ↔
      ∃ r ∈ db.reminders, r.id = rid ∧ r.user_id = uid) := by
  refine ⟨rfl, rfl, rfl, List.length_map db.reminders _, fun i => ?_, ?_⟩
  · exact List.getElem?_map _ _ _
  · unfold remove_reminder
    simp only
    rw [List.any_eq_true]
    constructor
    · rintro ⟨r, hmem, hr⟩
      exact ⟨r, hmem, by simpa using hr⟩
    · rintro ⟨r, hmem, h1, h2⟩
      exact ⟨r, hmem, by simp [h1, h2]⟩

/-- C9 witness: on a sample database holding the sample daily reminder, a
foreign reminder, one state row and one work-status row, removing reminder
2 of user 1 keeps both auxiliary tables, keeps both reminder rows, clears
exactly the matching active flag, and reports success. -/
theorem remove_reminder_spec_witness :
    (remove_reminder ⟨[⟨1, "UTC"⟩], [sampleDaily], [sampleAcked], []⟩ 1 2).1.reminder_states
      = [sampleAcked] ∧
    (remove_reminder ⟨[⟨1, "UTC"⟩], [sampleDaily], [sampleAcked], []⟩ 1 2).1.reminders.length
      = 1 ∧
    ((remove_reminder ⟨[⟨1, "UTC"⟩], [sampleDaily], [sampleAcked], []⟩ 1 2).2 = true ↔
      ∃ r ∈ [sampleDaily], r.id = 2 ∧ r.user_id = 1) := by
  have h := remove_reminder_spec ⟨[⟨1, "UTC"⟩], [sampleDaily], [sampleAcked], []⟩ 1 2
  exact ⟨h.1, h.2.2.2.1, h.2.2.2.2.2⟩

end PillsBot
